import Mathlib

/-!
Verification development for the market-analysis repository.

The Python sources are shallowly embedded: dictionaries become association
lists over `String`, Python floats that only ever hold small exact decimals
become `ℚ`, and `round(x, 2)` becomes exact rounding of a rational to two
decimal places with ties broken to even (the rounding rule of Python).
Calls into the `re` module are embedded through an explicit search oracle:
the control flow of every function is translated literally from the source,
while the oracle parameter stands for `re.search` applied to the literal
pattern strings of the source.
-/

namespace Market

/-! ## Rounding, as in Python `round(x, 2)` (ties to even) -/

/-- Rounding of a rational to the nearest integer, ties to even
(the rule used by Python `round`). -/
def roundHalfEven (x : ℚ) : ℤ :=
  if x - ⌊x⌋ = 1/2 then (if ⌊x⌋ % 2 = 0 then ⌊x⌋ else ⌊x⌋ + 1) else round x

/-- Python `round(x, 2)`: round to two decimal places, ties to even. -/
def round2 (x : ℚ) : ℚ := (roundHalfEven (x * 100) : ℚ) / 100

/-! ## Data model

`src/ai_agents_marketing.py` builds, per agent, a dict
`{"searches_performed": [...], "data_found": {...}}` (lines 297-300);
each entry of `searches_performed` is a dict with keys `query`,
`results_count` (the length of the result list, line 353) and `results`,
and every result is a dict with keys `title`, `url`, `snippet`, `content`
(lines 400-405). -/

/-- One web-search result record (dict with `title`, `url`, `snippet`,
`content`), `src/ai_agents_marketing.py` lines 400-405. -/
structure ResultRec where
  title : String
  url : String
  snippet : String
  content : String
deriving DecidableEq

/-- One entry of `searches_performed`, `src/ai_agents_marketing.py`
lines 351-356. -/
structure SearchEntry where
  query : String
  results_count : Nat
  results : List ResultRec
deriving DecidableEq

/-- The per-agent search record (`search_data` dict with `data_found` and
`searches_performed`), `src/ai_agents_marketing.py` lines 297-300. -/
structure SearchRecord where
  data_found : List (String × String)
  searches_performed : List SearchEntry
deriving DecidableEq

/-! ## Confidence scorer, `src/ai_agents_marketing.py` lines 539-551 -/

/-- `sum(1 for search in searches_performed if search.get("results_count", 0) > 0)`
(line 548). -/
def countProductive (sd : SearchRecord) : Nat :=
  (sd.searches_performed.filter (fun s => decide (0 < s.results_count))).length

/-- `calculate_confidence_score`, `src/ai_agents_marketing.py` lines 539-551:
`data_score = min(len(data_found) * 0.2, 1.0)`,
`search_score = min(searches_with_results * 0.1, 1.0)`,
`return round((data_score + search_score) / 2, 2)`. -/
def calculate_confidence_score (sd : SearchRecord) : ℚ :=
  let data_score : ℚ := min ((sd.data_found.length : ℚ) * 0.2) 1
  let search_score : ℚ := min ((countProductive sd : ℚ) * 0.1) 1
  round2 ((data_score + search_score) / 2)

/-! ## P.IVA validation, `src/utils.py` lines 19-38 -/

/-- The digit values remaining after `re.sub(r"[^\d]", "", piva)`
(`src/utils.py` line 25); ASCII decimal digits. -/
def digitsOf (s : String) : List Nat :=
  (s.data.filter Char.isDigit).map (fun c => c.toNat - 48)

/-- `DataValidator.validate_piva`, `src/utils.py` lines 19-38, with `none`
standing for Python `None` (and any non-string input, both rejected by the
`isinstance` guard).  Strips non-digits, requires exactly 11 digits, and
checks the Luhn-style control digit. -/
def validate_piva : Option String → Bool
  | none => false
  | some s =>
    if s = "" then false
    else
      let piva := digitsOf s
      if piva.length ≠ 11 then false
      else
        let odd_sum := ((List.range 5).map (fun i => piva.getD (2*i) 0)).sum
        let even_sum := ((List.range 5).map (fun i =>
          let t := 2 * piva.getD (2*i+1) 0
          if t < 10 then t else t - 9)).sum
        let control_digit := (10 - (odd_sum + even_sum) % 10) % 10
        piva.getD 10 0 == control_digit

/-- Control digit written from the words of the claim: sum of digits at even
indices 0,2,...,8, plus, over odd indices 1,3,...,9, twice the digit reduced
by 9 whenever the double is at least 10; then `(10 - total mod 10) mod 10`.
Spec-side definition, to be compared with `validate_piva`. -/
def pivaControlSpec (ds : List Nat) : Nat :=
  let evenIdxSum := ((List.range 5).map (fun i => ds.getD (2*i) 0)).sum
  let oddIdxSum := ((List.range 5).map (fun i =>
    if 10 ≤ 2 * ds.getD (2*i+1) 0 then 2 * ds.getD (2*i+1) 0 - 9
    else 2 * ds.getD (2*i+1) 0)).sum
  (10 - (evenIdxSum + oddIdxSum) % 10) % 10

/-! ## Regex oracle

The repository calls `re.search(pattern, content, re.IGNORECASE)` from the
standard library.  The regex engine is not code of this repository; it is
embedded as an explicit oracle of type `Regex`, applied to the literal
pattern strings of the source.  A `some` answer carries `group(0)` and
`group(1)` of the leftmost match; `none` stands for no match (and also for
a match whose group 1 would be `None`, which every caller below treats the
same way as no match). -/

/-- A successful `re.search` match: `group(0)` and `group(1)`. -/
structure PyMatch where
  group0 : String
  group1 : String
deriving DecidableEq

/-- The search oracle: pattern, then content, to optional match. -/
abbrev Regex := String → String → Option PyMatch

/-! Literal pattern strings from `src/ai_agents_marketing.py`
lines 475-521. -/

def pivaPat : String := "P\\.?\\s*IVA[:\\s]*(\\d\x7b11\x7d)"

def fatturatoPats : List String :=
  ["fatturato[:\\s]*€?\\s*([\\d,]+(?:\\.\\d+)?)\\s*(?:milioni?|mln|million)",
   "ricavi[:\\s]*€?\\s*([\\d,]+(?:\\.\\d+)?)\\s*(?:milioni?|mln|million)"]

def dipendentiPat : String := "(\\d+)\\s*dipendenti"

def sedePat : String := "sede[:\\s]*([^,\\n]+)"

def websitePat : String := "https?://[^\\s]+"

def trafficPat : String := "traffico[:\\s]*(\\d+[km]?)"

def instagramPat : String := "(\\d+[km]?)\\s*follower"

def facebookPat : String := "(\\d+[km]?)\\s*like"

/-! ## Dict primitives (Python `dict` as association list) -/

/-- Python `d.get(k)` (`none` when the key is absent). -/
def dget (d : List (String × String)) (k : String) : Option String :=
  (d.find? (fun p => p.1 == k)).map Prod.snd

/-- Python truthiness of `d.get(k)`: false for a missing key and for the
empty string. -/
def truthy : Option String → Bool
  | none => false
  | some v => !(v == "")

/-- Python `d[k] = v` on an association list: overwrite an existing key in
place, otherwise append. -/
def dictInsert (d : List (String × String)) (k v : String) :
    List (String × String) :=
  if d.any (fun p => p.1 == k) then
    d.map (fun p => if p.1 == k then (k, v) else p)
  else d ++ [(k, v)]

/-- Python `d.update(upd)`. -/
def dictUpdate (d upd : List (String × String)) : List (String × String) :=
  upd.foldl (fun acc p => dictInsert acc p.1 p.2) d

/-- Substring test on character lists: does the second list occur as a
prefix of the first? -/
def leadsWith : List Char → List Char → Bool
  | [], _ => true
  | _ :: _, [] => false
  | c :: cs, d :: ds => c == d && leadsWith cs ds

/-- Substring test on character lists (any position). -/
def hasSub (text pat : List Char) : Bool :=
  match text with
  | [] => pat.isEmpty
  | _ :: rest => leadsWith pat text || hasSub rest pat

/-- Python `sub in s` for strings. -/
def containsSub (s sub : String) : Bool := hasSub s.data sub.data

/-! ## Fact extractor, `src/ai_agents_marketing.py` lines 466-525 -/

/-- The guarded assignment pattern of the extractor
(`if not extracted_data.get(k): m = re.search(...); if m: extracted_data[k] = val(m)`). -/
def guardedSet (d : List (String × String)) (k : String)
    (m : Option PyMatch) (val : PyMatch → String) : List (String × String) :=
  if truthy (dget d k) then d
  else
    match m with
    | some mm => dictInsert d k (val mm)
    | none => d

/-- The unguarded assignment pattern
(`m = re.search(...); if m: extracted_data[k] = val(m)`, with no
`extracted_data.get` guard). -/
def unguardedSet (d : List (String × String)) (k : String)
    (m : Option PyMatch) (val : PyMatch → String) : List (String × String) :=
  match m with
  | some mm => dictInsert d k (val mm)
  | none => d

/-- `f"{result.get('title','')} {result.get('snippet','')} {result.get('content','')}"`
(line 469). -/
def content_of (r : ResultRec) : String :=
  r.title ++ " " ++ r.snippet ++ " " ++ r.content

/-- Body of the `financial_agent` branch (lines 472-497): `piva`, then
`fatturato` (two patterns, first match breaks), then `dipendenti`, then
`sede`; each guarded by `if not extracted_data.get(...)`. -/
def financialStep (re_search : Regex) (d : List (String × String))
    (content : String) : List (String × String) :=
  let d := guardedSet d "piva" (re_search pivaPat content) (fun m => m.group1)
  let d := guardedSet d "fatturato"
    (fatturatoPats.findSome? (fun p => re_search p content))
    (fun m => m.group1 ++ " milioni €")
  let d := guardedSet d "dipendenti" (re_search dipendentiPat content)
    (fun m => m.group1)
  let d := guardedSet d "sede" (re_search sedePat content)
    (fun m => m.group1.trim)
  d

/-- Body of the `digital_agent` branch (lines 499-509): `website` guarded
(stores `group(0)`), `traffic` unguarded. -/
def digitalStep (re_search : Regex) (d : List (String × String))
    (content : String) : List (String × String) :=
  let d := guardedSet d "website" (re_search websitePat content)
    (fun m => m.group0)
  let d := unguardedSet d "traffic" (re_search trafficPat content)
    (fun m => m.group1)
  d

/-- Body of the `social_agent` branch (lines 511-521): each extraction is
gated by a substring test on the lower-cased content and is unguarded. -/
def socialStep (re_search : Regex) (d : List (String × String))
    (content : String) : List (String × String) :=
  let d := if containsSub content.toLower "instagram" then
      unguardedSet d "instagram_followers" (re_search instagramPat content)
        (fun m => m.group1)
    else d
  let d := if containsSub content.toLower "facebook" then
      unguardedSet d "facebook_likes" (re_search facebookPat content)
        (fun m => m.group1)
    else d
  d

/-- One iteration of the `for result in results` loop of
`extract_data_from_results`. -/
def extractStep (re_search : Regex) (agent_name : String)
    (d : List (String × String)) (r : ResultRec) : List (String × String) :=
  let content := content_of r
  if agent_name == "financial_agent" then financialStep re_search d content
  else if agent_name == "digital_agent" then digitalStep re_search d content
  else if agent_name == "social_agent" then socialStep re_search d content
  else d

/-- `extract_data_from_results`, `src/ai_agents_marketing.py`
lines 466-525. -/
def extract_data_from_results (re_search : Regex) (results : List ResultRec)
    (agent_name : String) : List (String × String) :=
  results.foldl (extractStep re_search agent_name) []

/-- The candidate patterns each extractor field consults
(`src/ai_agents_marketing.py` lines 475-521). -/
def patternsOf : String → List String
  | "piva" => [pivaPat]
  | "fatturato" => fatturatoPats
  | "dipendenti" => [dipendentiPat]
  | "sede" => [sedePat]
  | "website" => [websitePat]
  | "traffic" => [trafficPat]
  | "instagram_followers" => [instagramPat]
  | "facebook_likes" => [facebookPat]
  | _ => []

/-! ## Market-share extraction, `src/competitor_analyzer.py` lines 139-152 -/

/-- Pattern list of `extract_market_share` (lines 141-145). -/
def marketSharePats : List String :=
  ["quota\\s+(?:di\\s+)?mercato:?\\s*([^,\\n]+)",
   "market\\s+share:?\\s*([^,\\n]+)",
   "(\\d+(?:\\.\\d+)?%)\\s*(?:del\\s+)?mercato"]

/-- `extract_market_share`, `src/competitor_analyzer.py` lines 139-152:
first matching pattern wins, stripped group 1; otherwise the literal
fallback string. -/
def extract_market_share (re_search : Regex) (text : String) : String :=
  match marketSharePats.findSome? (fun p => re_search p text) with
  | some m => m.group1.trim
  | none => "Non specificata"

/-! ## Aggregation, `src/ai_agents_marketing.py` lines 595-656 -/

/-- One entry of `agents_results`: either a dict carrying an `"error"` key
(written by `orchestrate_full_analysis` on agent failure, line 585) or the
structured response of `structure_agent_response` (lines 527-537), of which
the aggregator reads `data_extracted`, `search_data` and
`confidence_score`. -/
inductive AgentResult where
  | failure (error : String)
  | ok (data_extracted : List (String × String)) (search_data : SearchRecord)
      (confidence_score : ℚ)
deriving DecidableEq

/-- Python `"error" in result`. -/
def isError : AgentResult → Bool
  | .failure _ => true
  | .ok _ _ _ => false

/-- The `consolidated` dict of `consolidate_agents_data`
(lines 596-603). -/
structure Consolidated where
  company_profile : List (String × String)
  financial_data : List (String × String)
  digital_data : List (String × String)
  social_data : List (String × String)
  competitor_data : List (String × String)
  all_sources : List ResultRec
deriving DecidableEq

def emptyConsolidated : Consolidated := ⟨[], [], [], [], [], []⟩

/-- One iteration of the `for agent_name, result in agents_results.items()`
loop of `consolidate_agents_data` (lines 605-628): skip on error, merge
`data_extracted` into the section selected by the agent name, then extend
`all_sources` with every result of every performed search. -/
def consolidateStep (cons : Consolidated) (p : String × AgentResult) :
    Consolidated :=
  match p.2 with
  | .failure _ => cons
  | .ok data_extracted search_data _ =>
    let cons :=
      if p.1 == "financial_agent" then
        { cons with financial_data := dictUpdate cons.financial_data data_extracted }
      else if p.1 == "digital_agent" then
        { cons with digital_data := dictUpdate cons.digital_data data_extracted }
      else if p.1 == "social_agent" then
        { cons with social_data := dictUpdate cons.social_data data_extracted }
      else if p.1 == "competitor_agent" then
        { cons with competitor_data := dictUpdate cons.competitor_data data_extracted }
      else if p.1 == "company_agent" then
        { cons with company_profile := dictUpdate cons.company_profile data_extracted }
      else cons
    { cons with all_sources :=
        cons.all_sources ++
          (search_data.searches_performed.map SearchEntry.results).flatten }

/-- `consolidate_agents_data`, `src/ai_agents_marketing.py`
lines 595-630. -/
def consolidate_agents_data (agents_results : List (String × AgentResult)) :
    Consolidated :=
  agents_results.foldl consolidateStep emptyConsolidated

/-- The slice of `analysis_results` read by `calculate_quality_metrics`. -/
structure AnalysisResults where
  agents_results : List (String × AgentResult)
  consolidated_data : Consolidated
deriving DecidableEq

/-- The dict returned by `calculate_quality_metrics` (lines 648-656). -/
structure QualityMetrics where
  overall_score : ℚ
  agent_scores : List (String × ℚ)
  total_data_points : Nat
  agents_succeeded : Nat
  agents_failed : Nat
  quality_level : String
deriving DecidableEq

/-- The conditional expression choosing `quality_level`
(`src/ai_agents_marketing.py` line 655). -/
def quality_level_of (s : ℚ) : String :=
  if s ≥ 0.8 then "Eccellente"
  else if s ≥ 0.6 then "Buona"
  else if s ≥ 0.4 then "Sufficiente"
  else "Limitata"

/-- The `agent_scores` dict (lines 636-639): confidence score of every
agent result not carrying an error marker. -/
def agentScores (agents_results : List (String × AgentResult)) :
    List (String × ℚ) :=
  agents_results.filterMap (fun p =>
    match p.2 with
    | .ok _ _ c => some (p.1, c)
    | .failure _ => none)

/-- `calculate_quality_metrics`, `src/ai_agents_marketing.py`
lines 632-656.  `overall_score = sum(...) / len(...) if agent_scores else 0`
(line 642), reported rounded to two decimals; `quality_level` is chosen
from the unrounded value (line 655); `total_data_points` sums the sizes of
the five dict-valued sections of the consolidated data (line 646). -/
def calculate_quality_metrics (analysis : AnalysisResults) : QualityMetrics :=
  let agent_scores := agentScores analysis.agents_results
  let overall_score : ℚ :=
    if agent_scores.length ≠ 0 then
      ((agent_scores.map Prod.snd).sum) / (agent_scores.length : ℚ)
    else 0
  let cons := analysis.consolidated_data
  { overall_score := round2 overall_score
    agent_scores := agent_scores
    total_data_points :=
      cons.company_profile.length + cons.financial_data.length +
      cons.digital_data.length + cons.social_data.length +
      cons.competitor_data.length
    agents_succeeded :=
      (analysis.agents_results.filter (fun p => !(isError p.2))).length
    agents_failed :=
      (analysis.agents_results.filter (fun p => isError p.2)).length
    quality_level := quality_level_of overall_score }

/-! ## Numeric extraction with fallback, `src/competitor_analyzer.py`
lines 319-327 -/

/-- Remove every occurrence of a character (Python `s.replace(c, "")`). -/
def removeAll (c : Char) (s : String) : String :=
  String.mk (s.data.filter (fun x => !(x == c)))

/-- Digit run to integer value. -/
def digitsVal (l : List Char) : Int :=
  l.foldl (fun a c => 10 * a + ((c.toNat : Int) - 48)) 0

/-- Model of Python `int(s)` on strings: optional surrounding whitespace,
optional sign, then a nonempty run of ASCII digits; `none` when `int`
would raise `ValueError`.  (Digit-group underscores and non-ASCII digits,
which Python also accepts, never arrive here: the callers pass captured
groups of `[\d,.]`-shaped patterns.) -/
def parsePyInt (s : String) : Option Int :=
  let t := ((s.data.dropWhile Char.isWhitespace).reverse.dropWhile
    Char.isWhitespace).reverse
  let p := match t with
    | '-' :: rest => (true, rest)
    | '+' :: rest => (false, rest)
    | _ => (false, t)
  if p.2 ≠ [] ∧ p.2.all Char.isDigit then
    some (if p.1 then -(digitsVal p.2) else digitsVal p.2)
  else none

/-- `extract_number_from_text`, `src/competitor_analyzer.py` lines 319-327:
search, strip every `,` then every `.` from group 1, cast with `int`;
the caller-supplied default on no match or on any exception (the bare
`except` of the source). -/
def extract_number_from_text (re_search : Regex) (text pat : String)
    (default : Int) : Int :=
  match re_search pat text with
  | some m =>
    match parsePyInt (removeAll '.' (removeAll ',' m.group1)) with
    | some n => n
    | none => default
  | none => default

/-! ## Concrete fixtures

Oracles below record, input by input, what `re.search` returns on the
concrete pattern and content strings they are applied to; each value can be
re-traced against the pattern by hand. -/

/-- Oracle for inputs on which no pattern matches (for instance the empty
string, matched by none of the patterns above). -/
def noRe : Regex := fun _ _ => none

/-- The guard-protected extractor fields of
`src/ai_agents_marketing.py` lines 472-507. -/
def guardedFields : List String :=
  ["piva", "fatturato", "dipendenti", "sede", "website"]

/-- Sources contributed by one agent entry: nothing on failure, otherwise
the concatenated result lists of its performed searches. -/
def srcsOf (p : String × AgentResult) : List ResultRec :=
  match p.2 with
  | .failure _ => []
  | .ok _ sd _ => (sd.searches_performed.map SearchEntry.results).flatten

/-- A search result cited by two agents (C3). -/
def rX : ResultRec := ⟨"Azienda X", "https://x.it", "profilo societario", ""⟩

/-- Two non-failed agents both citing `rX` (C3). -/
def c3agents : List (String × AgentResult) :=
  [("financial_agent", .ok [] ⟨[], [⟨"q1", 1, [rX]⟩]⟩ 0),
   ("digital_agent", .ok [] ⟨[], [⟨"q2", 1, [rX]⟩]⟩ 0)]

/-- First result for the C4 counterexample; its concatenated content is
`" traffico: 5 "`. -/
def trafRes1 : ResultRec := ⟨"", "u1", "traffico: 5", ""⟩

/-- Second result for the C4 counterexample; its concatenated content is
`" traffico: 7 "`. -/
def trafRes2 : ResultRec := ⟨"", "u2", "traffico: 7", ""⟩

/-- `re.search(r"traffico[:\s]*(\d+[km]?)", ...)` on the two contents of
the C4 counterexample: on `" traffico: 5 "` the leftmost match is
`"traffico: 5"` with group 1 `"5"`, and on `" traffico: 7 "` it is
`"traffico: 7"` with group 1 `"7"`. -/
def trafRe : Regex := fun p c =>
  if p == trafficPat && c == content_of trafRes1 then
    some ⟨"traffico: 5", "5"⟩
  else if p == trafficPat && c == content_of trafRes2 then
    some ⟨"traffico: 7", "7"⟩
  else none

/-- First result for the C4 witness; concatenated content
`"x P.IVA: 12345678901 "`. -/
def pivaRes1 : ResultRec := ⟨"x", "u1", "P.IVA: 12345678901", ""⟩

/-- Second result for the C4 witness; concatenated content
`"x P.IVA: 98765432109 "`. -/
def pivaRes2 : ResultRec := ⟨"x", "u2", "P.IVA: 98765432109", ""⟩

/-- `re.search(r"P\.?\s*IVA[:\s]*(\d{11})", ..., re.IGNORECASE)` on the two
contents of the C4 witness. -/
def pivaRe : Regex := fun p c =>
  if p == pivaPat && c == content_of pivaRes1 then
    some ⟨"P.IVA: 12345678901", "12345678901"⟩
  else if p == pivaPat && c == content_of pivaRes2 then
    some ⟨"P.IVA: 98765432109", "98765432109"⟩
  else none

/-- A generic result record for the C5 witness. -/
def blandRes : ResultRec := ⟨"nessun dato", "u", "nessun dato utile", ""⟩

/-- Three productive agents and one failed agent whose exact mean score
1/12 is not representable in two decimals (C2 counterexample). -/
def c2agents : List (String × AgentResult) :=
  [("financial_agent", .ok [] ⟨[], []⟩ 0.05),
   ("digital_agent", .ok [] ⟨[], []⟩ 0.1),
   ("social_agent", .ok [] ⟨[], []⟩ 0.1),
   ("company_agent", .failure "boom")]

/-- One agent with confidence 0.8 plus one failed agent (C2 witness,
the example named by the claim). -/
def c2wAgents : List (String × AgentResult) :=
  [("financial_agent", .ok [] ⟨[], []⟩ 0.8),
   ("company_agent", .failure "boom")]

/-- Oracle for the C6 witness: on the text `"fatturato 2.500"` the pattern
captures the group `"2.500"`. -/
def c6Re : Regex := fun p t =>
  if p == "([\\d.,]+)" && t == "fatturato 2.500" then some ⟨"2.500", "2.500"⟩
  else none

/-! # Theorems -/

/-! ## Rounding helpers -/

theorem roundHalfEven_intCast (k : ℤ) : roundHalfEven (k : ℚ) = k := by
  have h : ((k : ℚ) - ⌊(k : ℚ)⌋ : ℚ) ≠ 1/2 := by
    rw [Int.floor_intCast]
    simp
  unfold roundHalfEven
  rw [if_neg h, round_intCast]

theorem round2_eq_self (x : ℚ) (k : ℤ) (h : x * 100 = (k : ℚ)) :
    round2 x = x := by
  unfold round2
  rw [h, roundHalfEven_intCast]
  linarith

/-! ## Confidence score in closed form -/

theorem confidence_closed (sd : SearchRecord) :
    calculate_confidence_score sd =
      ((min (2 * sd.data_found.length) 10
        + min (countProductive sd) 10 : ℕ) : ℚ) / 20 := by
  have hd : min ((sd.data_found.length : ℚ) * 0.2) 1
      = ((min (2 * sd.data_found.length) 10 : ℕ) : ℚ) / 10 := by
    rw [Nat.cast_min]
    push_cast
    have e1 : (sd.data_found.length : ℚ) * 0.2
        = 2 * (sd.data_found.length : ℚ) / 10 := by ring
    rw [e1, show (1 : ℚ) = 10 / 10 from by norm_num,
      min_div_div_right (by norm_num : (0:ℚ) ≤ 10)]
  have hs : min ((countProductive sd : ℚ) * 0.1) 1
      = ((min (countProductive sd) 10 : ℕ) : ℚ) / 10 := by
    rw [Nat.cast_min]
    have e1 : (countProductive sd : ℚ) * 0.1 = (countProductive sd : ℚ) / 10 := by
      ring
    rw [e1, show (1 : ℚ) = 10 / 10 from by norm_num,
      min_div_div_right (by norm_num : (0:ℚ) ≤ 10)]
    norm_num
  show round2 ((min ((sd.data_found.length : ℚ) * 0.2) 1
      + min ((countProductive sd : ℚ) * 0.1) 1) / 2) = _
  rw [hd, hs]
  rw [round2_eq_self _
    ((5 : ℤ) * (min (2 * sd.data_found.length) 10 + min (countProductive sd) 10 : ℕ))
    (by push_cast; ring)]
  push_cast
  ring

/-! ## Claim theorems -/

/-- C1: for every aspect search record, the confidence score equals
round((min(f * 0.2, 1.0) + min(q * 0.1, 1.0)) / 2, 2) where f is the
number of fields in `data_found` and q the number of performed searches
with a positive `results_count`, and the value always lies in [0, 1]. -/
theorem C1_confidence_score (sd : SearchRecord) :
    calculate_confidence_score sd
        = round2 ((min ((sd.data_found.length : ℚ) * 0.2) 1
            + min ((countProductive sd : ℚ) * 0.1) 1) / 2)
      ∧ 0 ≤ calculate_confidence_score sd
      ∧ calculate_confidence_score sd ≤ 1 := by
  refine ⟨rfl, ?_, ?_⟩
  · rw [confidence_closed]
    positivity
  · rw [confidence_closed, div_le_one (by norm_num : (0:ℚ) < 20)]
    have h1 : min (2 * sd.data_found.length) 10 ≤ 10 := min_le_right _ _
    have h2 : min (countProductive sd) 10 ≤ 10 := min_le_right _ _
    have h : (min (2 * sd.data_found.length) 10
        + min (countProductive sd) 10 : ℕ) ≤ 20 := by omega
    exact_mod_cast h

/-- C1 has no hypothesis, but the closed-form evaluation below keeps the
definitions honest on a concrete record: two fields found and one
productive search give round((0.4 + 0.1) / 2, 2) = 0.25. -/
theorem C1_eval :
    calculate_confidence_score
      ⟨[("piva", "12345678901"), ("sede", "Milano")], [⟨"q", 3, []⟩]⟩
      = 0.25 := by
  rw [confidence_closed]
  norm_num [countProductive]

/-- C8: holding the number of productive queries constant, the confidence
score is monotonically non-decreasing in the number of fields found. -/
theorem C8_confidence_monotone (sd₁ sd₂ : SearchRecord)
    (hf : sd₁.data_found.length ≤ sd₂.data_found.length)
    (hq : countProductive sd₁ = countProductive sd₂) :
    calculate_confidence_score sd₁ ≤ calculate_confidence_score sd₂ := by
  rw [confidence_closed, confidence_closed, hq]
  have h : (min (2 * sd₁.data_found.length) 10 + min (countProductive sd₂) 10 : ℕ)
      ≤ (min (2 * sd₂.data_found.length) 10 + min (countProductive sd₂) 10 : ℕ) := by
    have := min_le_min (by omega : 2 * sd₁.data_found.length ≤ 2 * sd₂.data_found.length)
      (le_refl 10)
    omega
  have hc : ((min (2 * sd₁.data_found.length) 10 + min (countProductive sd₂) 10 : ℕ) : ℚ)
      ≤ ((min (2 * sd₂.data_found.length) 10 + min (countProductive sd₂) 10 : ℕ) : ℚ) := by
    exact_mod_cast h
  gcongr

/-- Witness for C8 at a concrete pair of records. -/
theorem C8_confidence_monotone_witness :
    calculate_confidence_score ⟨[], []⟩
      ≤ calculate_confidence_score ⟨[("sede", "Milano")], []⟩ :=
  C8_confidence_monotone ⟨[], []⟩ ⟨[("sede", "Milano")], []⟩ (by decide) (by decide)

/-- C7: for every overall score in [0, 1], the quality label is chosen by
inclusive lower bounds over four ordinal buckets, with 0.8, 0.6 and 0.4
falling in the higher bucket. -/
theorem C7_quality_buckets (s : ℚ) (h0 : 0 ≤ s) (h1 : s ≤ 1) :
    (0.8 ≤ s → quality_level_of s = "Eccellente")
      ∧ (0.6 ≤ s ∧ s < 0.8 → quality_level_of s = "Buona")
      ∧ (0.4 ≤ s ∧ s < 0.6 → quality_level_of s = "Sufficiente")
      ∧ (s < 0.4 → quality_level_of s = "Limitata") := by
  unfold quality_level_of
  refine ⟨fun h => ?_, fun h => ?_, fun h => ?_, fun h => ?_⟩ <;>
    split_ifs with h8 h6 h4 <;>
    first
      | rfl
      | (exfalso
         rw [ge_iff_le] at *
         rcases h with ⟨ha, hb⟩ | h <;> linarith)
      | (exfalso
         rw [ge_iff_le] at *
         linarith [h.1, h.2])
      | (exfalso
         rw [ge_iff_le] at *
         linarith)

/-- Witness for C7 at the three boundary scores named by the claim. -/
theorem C7_quality_buckets_witness :
    quality_level_of 0.8 = "Eccellente"
      ∧ quality_level_of 0.6 = "Buona"
      ∧ quality_level_of 0.4 = "Sufficiente" :=
  ⟨(C7_quality_buckets 0.8 (by norm_num) (by norm_num)).1 (by norm_num),
   (C7_quality_buckets 0.6 (by norm_num) (by norm_num)).2.1 ⟨by norm_num, by norm_num⟩,
   (C7_quality_buckets 0.4 (by norm_num) (by norm_num)).2.2.1 ⟨by norm_num, by norm_num⟩⟩

/-- C9: scoring and extraction are deterministic two-run properties: two
runs on equal inputs return equal outputs (all three functions are pure in
the embedding, mutating no state), and the overall score is a function of
the agent results alone — it does not depend on the consolidated data also
present in the analysis record. -/
theorem C9_deterministic (sd sd' : SearchRecord) (hsd : sd = sd')
    (ars ars' : List (String × AgentResult)) (hars : ars = ars')
    (cons cons' : Consolidated) (re re' : Regex) (hre : re = re')
    (rs rs' : List ResultRec) (hrs : rs = rs') (ag ag' : String)
    (hag : ag = ag') :
    calculate_confidence_score sd = calculate_confidence_score sd'
      ∧ (calculate_quality_metrics ⟨ars, cons⟩).overall_score
          = (calculate_quality_metrics ⟨ars', cons'⟩).overall_score
      ∧ extract_data_from_results re rs ag = extract_data_from_results re' rs' ag' := by
  subst hsd hars hre hrs hag
  exact ⟨rfl, rfl, rfl⟩

/-- Witness for C9: the overall score is unchanged when only the
consolidated data differs between the two runs. -/
theorem C9_deterministic_witness :
    (calculate_quality_metrics ⟨c2wAgents, emptyConsolidated⟩).overall_score
      = (calculate_quality_metrics
          ⟨c2wAgents, ⟨[("k", "v")], [], [], [], [], []⟩⟩).overall_score :=
  (C9_deterministic ⟨[], []⟩ ⟨[], []⟩ rfl c2wAgents c2wAgents rfl
    emptyConsolidated ⟨[("k", "v")], [], [], [], [], []⟩ noRe noRe rfl
    [] [] rfl "x" "x" rfl).2.1

/-- C6: the numeric extraction helper never raises (it is total): group 1
of a match is stripped of every comma and every dot before the integer
cast, the caller-supplied default is returned when there is no match or
the cast fails, and the cast value is returned otherwise. -/
theorem C6_numeric_fallback (re_search : Regex) (text pat : String) (d : Int) :
    (re_search pat text = none →
        extract_number_from_text re_search text pat d = d)
      ∧ (∀ m, re_search pat text = some m →
          parsePyInt (removeAll '.' (removeAll ',' m.group1)) = none →
          extract_number_from_text re_search text pat d = d)
      ∧ (∀ m n, re_search pat text = some m →
          parsePyInt (removeAll '.' (removeAll ',' m.group1)) = some n →
          extract_number_from_text re_search text pat d = n)
      ∧ ∀ g : String, (removeAll '.' (removeAll ',' g)).data
          = g.data.filter (fun c => !(c == '.') && !(c == ',')) := by
  refine ⟨fun h => ?_, fun m hm hp => ?_, fun m n hm hp => ?_, fun g => ?_⟩
  · simp [extract_number_from_text, h]
  · simp [extract_number_from_text, hm, hp]
  · simp [extract_number_from_text, hm, hp]
  · simp [removeAll, List.filter_filter]

/-- Witness for C6: a captured group with both separators parses to the
plain integer, and both failure modes fall back to the default. -/
theorem C6_numeric_fallback_witness :
    extract_number_from_text noRe "x" "p" 7 = 7
      ∧ extract_number_from_text c6Re "fatturato 2.500" "([\\d.,]+)" 0 = 2500 :=
  ⟨(C6_numeric_fallback noRe "x" "p" 7).1 rfl,
   (C6_numeric_fallback c6Re "fatturato 2.500" "([\\d.,]+)" 0).2.2.1
     ⟨"2.500", "2.500"⟩ 2500 rfl (by decide)⟩

/-- C10: `validate_piva` accepts exactly the strings whose digit content,
after removing every non-digit character, has exactly 11 digits whose last
digit equals the Italian control digit of `pivaControlSpec`; it rejects
`None` (and non-strings, both mapped to `none`) and never raises (it is a
total function). -/
theorem C10_validate_piva :
    validate_piva none = false
      ∧ ∀ s : String, validate_piva (some s) = true ↔
          ((digitsOf s).length = 11
            ∧ (digitsOf s).getD 10 0 = pivaControlSpec (digitsOf s)) := by
  refine ⟨rfl, fun s => ?_⟩
  have hfun : (fun i =>
        let t := 2 * (digitsOf s).getD (2*i+1) 0
        if t < 10 then t else t - 9)
      = (fun i =>
        if 10 ≤ 2 * (digitsOf s).getD (2*i+1) 0 then
          2 * (digitsOf s).getD (2*i+1) 0 - 9
        else 2 * (digitsOf s).getD (2*i+1) 0) := by
    funext i
    dsimp only
    split_ifs <;> omega
  by_cases hs : s = ""
  · subst hs
    have hd : digitsOf "" = [] := rfl
    simp [validate_piva, hd]
  · by_cases hlen : (digitsOf s).length = 11
    · simp only [validate_piva, if_neg hs, hlen]
      rw [if_neg (by omega : ¬ (11 : ℕ) ≠ 11), beq_iff_eq]
      unfold pivaControlSpec
      rw [hfun]
      simp [hlen]
    · simp only [validate_piva, if_neg hs]
      rw [if_pos hlen]
      simp [hlen]

/-- Witness for C10: the all-zero string is a valid P.IVA (control digit
0), and a string with a wrong last digit is rejected. -/
theorem C10_validate_piva_witness :
    validate_piva (some "00000000000") = true
      ∧ validate_piva (some "00000000001") = false := by
  constructor
  · exact (C10_validate_piva.2 "00000000000").mpr ⟨by decide, by decide⟩
  · rw [← Bool.not_eq_true]
    intro h
    have := (C10_validate_piva.2 "00000000001").mp h
    revert this
    decide

/-! ## Dict lemmas -/

theorem dget_cons (p : String × String) (d : List (String × String)) (k : String) :
    dget (p :: d) k = if (p.1 == k) = true then some p.2 else dget d k := by
  unfold dget
  rw [List.find?_cons]
  split_ifs with hp
  · rw [hp]
    rfl
  · rw [Bool.eq_false_iff.mpr hp]

theorem dget_map_overwrite (k' k v : String) (h : k' ≠ k) :
    ∀ d : List (String × String),
      dget (d.map (fun p => if p.1 == k' then (k', v) else p)) k = dget d k := by
  intro d
  induction d with
  | nil => rfl
  | cons p ps ih =>
    by_cases hp : (p.1 == k') = true
    · have hpe : p.1 = k' := by simpa using hp
      simp only [List.map_cons, if_pos hp]
      rw [dget_cons, dget_cons, ih]
      have h1 : (k' == k) = false := by simp [h]
      have h2 : (p.1 == k) = false := by simp [hpe, h]
      rw [h1, h2]
      simp
    · simp only [List.map_cons, if_neg hp]
      rw [dget_cons, dget_cons, ih]

theorem dget_dictInsert_ne (d : List (String × String)) (k' k v : String)
    (h : k' ≠ k) : dget (dictInsert d k' v) k = dget d k := by
  unfold dictInsert
  split_ifs with hany
  · exact dget_map_overwrite k' k v h d
  · unfold dget
    rw [List.find?_append]
    have hke : (k' == k) = false := by simp [h]
    have hsing : List.find? (fun p => p.1 == k) [(k', v)] = none := by
      simp [List.find?, hke]
    rw [hsing, Option.or_none]

theorem dget_dictInsert_self (d : List (String × String)) (k v : String) :
    dget (dictInsert d k v) k = some v := by
  unfold dictInsert
  split_ifs with hany
  · induction d with
    | nil => simp at hany
    | cons p ps ih =>
      by_cases hp : (p.1 == k) = true
      · simp only [List.map_cons, if_pos hp]
        rw [dget_cons]
        simp
      · have h' : ps.any (fun p => p.1 == k) = true := by
          simpa [List.any_cons, hp] using hany
        simp only [List.map_cons, if_neg hp]
        rw [dget_cons, if_neg (by simp [hp]), ih h']
  · unfold dget
    rw [List.find?_append]
    have hd : List.find? (fun p => p.1 == k) d = none := by
      rw [List.find?_eq_none]
      intro x hx hc
      exact hany (List.any_eq_true.mpr ⟨x, hx, hc⟩)
    rw [hd]
    simp [List.find?]

/-! ## Extractor step lemmas -/

theorem guardedSet_noneMatch (d : List (String × String)) (k : String)
    (val : PyMatch → String) : guardedSet d k none val = d := by
  unfold guardedSet
  split <;> rfl

theorem unguardedSet_noneMatch (d : List (String × String)) (k : String)
    (val : PyMatch → String) : unguardedSet d k none val = d := rfl

theorem dget_guardedSet_ne (d : List (String × String)) (k' k : String)
    (m : Option PyMatch) (val : PyMatch → String) (h : k' ≠ k) :
    dget (guardedSet d k' m val) k = dget d k := by
  unfold guardedSet
  split
  · rfl
  · cases m with
    | none => rfl
    | some mm => exact dget_dictInsert_ne d k' k (val mm) h

theorem dget_unguardedSet_ne (d : List (String × String)) (k' k : String)
    (m : Option PyMatch) (val : PyMatch → String) (h : k' ≠ k) :
    dget (unguardedSet d k' m val) k = dget d k := by
  unfold unguardedSet
  cases m with
  | none => rfl
  | some mm => exact dget_dictInsert_ne d k' k (val mm) h

theorem dget_guardedSet_truthy (d : List (String × String)) (k k' : String)
    (m : Option PyMatch) (val : PyMatch → String)
    (h : truthy (dget d k) = true) :
    dget (guardedSet d k' m val) k = dget d k := by
  by_cases hk : k' = k
  · subst hk
    unfold guardedSet
    rw [if_pos h]
  · exact dget_guardedSet_ne d k' k m val hk

theorem financialStep_stable (re_search : Regex) (d : List (String × String))
    (c k : String) (h : truthy (dget d k) = true) :
    dget (financialStep re_search d c) k = dget d k := by
  unfold financialStep
  have h1 := dget_guardedSet_truthy d k "piva" (re_search pivaPat c)
    (fun m => m.group1) h
  have t1 : truthy (dget (guardedSet d "piva" (re_search pivaPat c)
      (fun m => m.group1)) k) = true := by rw [h1]; exact h
  have h2 := dget_guardedSet_truthy _ k "fatturato"
    (fatturatoPats.findSome? (fun p => re_search p c))
    (fun m => m.group1 ++ " milioni €") t1
  have t2 : truthy (dget (guardedSet (guardedSet d "piva" (re_search pivaPat c)
      (fun m => m.group1)) "fatturato"
      (fatturatoPats.findSome? (fun p => re_search p c))
      (fun m => m.group1 ++ " milioni €")) k) = true := by
    rw [h2]; exact t1
  have h3 := dget_guardedSet_truthy _ k "dipendenti" (re_search dipendentiPat c)
    (fun m => m.group1) t2
  have t3 : truthy (dget (guardedSet (guardedSet (guardedSet d "piva"
      (re_search pivaPat c) (fun m => m.group1)) "fatturato"
      (fatturatoPats.findSome? (fun p => re_search p c))
      (fun m => m.group1 ++ " milioni €")) "dipendenti"
      (re_search dipendentiPat c) (fun m => m.group1)) k) = true := by
    rw [h3]; exact t2
  have h4 := dget_guardedSet_truthy _ k "sede" (re_search sedePat c)
    (fun m => m.group1.trim) t3
  rw [h4, h3, h2, h1]

theorem digitalStep_stable (re_search : Regex) (d : List (String × String))
    (c k : String) (h : truthy (dget d k) = true) (hk : k ≠ "traffic") :
    dget (digitalStep re_search d c) k = dget d k := by
  unfold digitalStep
  rw [dget_unguardedSet_ne _ "traffic" k _ _ (Ne.symm hk)]
  exact dget_guardedSet_truthy d k "website" (re_search websitePat c)
    (fun m => m.group0) h

theorem socialStep_stable (re_search : Regex) (d : List (String × String))
    (c k : String) (hk1 : k ≠ "instagram_followers")
    (hk2 : k ≠ "facebook_likes") :
    dget (socialStep re_search d c) k = dget d k := by
  unfold socialStep
  split_ifs <;>
    simp only [dget_unguardedSet_ne _ "instagram_followers" k _ _ (Ne.symm hk1),
      dget_unguardedSet_ne _ "facebook_likes" k _ _ (Ne.symm hk2)]

theorem extractStep_stable (re_search : Regex) (a : String)
    (d : List (String × String)) (r : ResultRec) (k : String)
    (hk : k ∈ guardedFields) (h : truthy (dget d k) = true) :
    dget (extractStep re_search a d r) k = dget d k := by
  have hks : k ≠ "traffic" ∧ k ≠ "instagram_followers" ∧ k ≠ "facebook_likes" := by
    simp only [guardedFields, List.mem_cons, List.not_mem_nil, or_false] at hk
    rcases hk with rfl | rfl | rfl | rfl | rfl <;>
      exact ⟨by decide, by decide, by decide⟩
  unfold extractStep
  split_ifs
  · exact financialStep_stable re_search d (content_of r) k h
  · exact digitalStep_stable re_search d (content_of r) k h hks.1
  · exact socialStep_stable re_search d (content_of r) k hks.2.1 hks.2.2
  · rfl

theorem extract_foldl_stable (re_search : Regex) (a k : String) :
    ∀ (l : List ResultRec) (d : List (String × String)),
      k ∈ guardedFields → truthy (dget d k) = true →
      dget (l.foldl (extractStep re_search a) d) k = dget d k := by
  intro l
  induction l with
  | nil => intro d _ _; rfl
  | cons r rs ih =>
    intro d hk h
    rw [List.foldl_cons]
    have hstep := extractStep_stable re_search a d r k hk h
    rw [ih _ hk (by rw [hstep]; exact h), hstep]

/-- C4 counterexample: under the digital agent, the `traffic` field is NOT
first-match-wins.  The oracle records that the traffic pattern matches the
first result with group `"5"`, yet the extractor returns `"7"`, the value
from the second, later result — which the claim says must be ignored. -/
theorem C4_counterexample :
    trafRe trafficPat (content_of trafRes1) = some ⟨"traffico: 5", "5"⟩
      ∧ dget (extract_data_from_results trafRe [trafRes1, trafRes2]
          "digital_agent") "traffic" = some "7"
      ∧ dget (extract_data_from_results trafRe [trafRes1, trafRes2]
          "digital_agent") "traffic" ≠ some "5" := by
  refine ⟨by decide, by decide, by decide⟩

/-- C4 amended: for the guard-protected fields (piva, fatturato,
dipendenti, sede, website) the extractor sets the field at most once:
once the field is truthy after a prefix of the results, processing further
results never changes it.  (The unguarded fields traffic,
instagram_followers and facebook_likes are instead overwritten by later
matches, as the counterexample shows.) -/
theorem C4_first_match_guarded (re_search : Regex) (agent : String)
    (l1 l2 : List ResultRec) (k : String) (hk : k ∈ guardedFields)
    (h : truthy (dget (extract_data_from_results re_search l1 agent) k) = true) :
    dget (extract_data_from_results re_search (l1 ++ l2) agent) k
      = dget (extract_data_from_results re_search l1 agent) k := by
  unfold extract_data_from_results at *
  rw [List.foldl_append]
  exact extract_foldl_stable re_search agent k l2 _ hk h

/-- Witness for C4: a P.IVA found in the first result survives a second
result in which the oracle reports a different P.IVA match. -/
theorem C4_first_match_guarded_witness :
    dget (extract_data_from_results pivaRe ([pivaRes1] ++ [pivaRes2])
        "financial_agent") "piva"
      = dget (extract_data_from_results pivaRe [pivaRes1] "financial_agent")
          "piva" :=
  C4_first_match_guarded pivaRe "financial_agent" [pivaRes1] [pivaRes2] "piva"
    (by decide) (by decide)

/-! ## Absence lemmas (C5) -/

theorem dget_guardedSet_keep (d : List (String × String)) (k' k : String)
    (m : Option PyMatch) (val : PyMatch → String) (hm : k' = k → m = none)
    (h : dget d k = none) : dget (guardedSet d k' m val) k = none := by
  by_cases hk : k' = k
  · rw [hm hk, guardedSet_noneMatch]
    exact h
  · rw [dget_guardedSet_ne d k' k m val hk]
    exact h

theorem dget_unguardedSet_keep (d : List (String × String)) (k' k : String)
    (m : Option PyMatch) (val : PyMatch → String) (hm : k' = k → m = none)
    (h : dget d k = none) : dget (unguardedSet d k' m val) k = none := by
  by_cases hk : k' = k
  · rw [hm hk, unguardedSet_noneMatch]
    exact h
  · rw [dget_unguardedSet_ne d k' k m val hk]
    exact h

theorem extractStep_absent (re_search : Regex) (a : String)
    (d : List (String × String)) (r : ResultRec) (k : String)
    (hp : ∀ p ∈ patternsOf k, re_search p (content_of r) = none)
    (h : dget d k = none) : dget (extractStep re_search a d r) k = none := by
  unfold extractStep
  split_ifs
  · unfold financialStep
    apply dget_guardedSet_keep
    · intro he
      exact hp sedePat (by rw [← he]; simp [patternsOf])
    apply dget_guardedSet_keep
    · intro he
      exact hp dipendentiPat (by rw [← he]; simp [patternsOf])
    apply dget_guardedSet_keep
    · intro he
      refine List.findSome?_eq_none_iff.mpr (fun p hpm => ?_)
      exact hp p (by rw [← he]; simpa [patternsOf] using hpm)
    apply dget_guardedSet_keep
    · intro he
      exact hp pivaPat (by rw [← he]; simp [patternsOf])
    exact h
  · unfold digitalStep
    apply dget_unguardedSet_keep
    · intro he
      exact hp trafficPat (by rw [← he]; simp [patternsOf])
    apply dget_guardedSet_keep
    · intro he
      exact hp websitePat (by rw [← he]; simp [patternsOf])
    exact h
  · simp only [socialStep]
    split_ifs
    · apply dget_unguardedSet_keep
      · intro he
        exact hp facebookPat (by rw [← he]; simp [patternsOf])
      apply dget_unguardedSet_keep
      · intro he
        exact hp instagramPat (by rw [← he]; simp [patternsOf])
      exact h
    · apply dget_unguardedSet_keep
      · intro he
        exact hp facebookPat (by rw [← he]; simp [patternsOf])
      exact h
    · apply dget_unguardedSet_keep
      · intro he
        exact hp instagramPat (by rw [← he]; simp [patternsOf])
      exact h
    · exact h
  · exact h

theorem extract_foldl_absent (re_search : Regex) (a k : String) :
    ∀ (l : List ResultRec) (d : List (String × String)),
      (∀ r ∈ l, ∀ p ∈ patternsOf k, re_search p (content_of r) = none) →
      dget d k = none →
      dget (l.foldl (extractStep re_search a) d) k = none := by
  intro l
  induction l with
  | nil => intro d _ h; exact h
  | cons r rs ih =>
    intro d hl h
    rw [List.foldl_cons]
    refine ih _ (fun x hx => hl x (List.mem_cons_of_mem r hx)) ?_
    exact extractStep_absent re_search a d r k
      (hl r (List.mem_cons_self r rs)) h

/-- C5 counterexample: when no market-share pattern matches (here: the
empty input text, matched by none of the three patterns),
`extract_market_share` does not leave the field absent — it returns the
sentinel string "Non specificata", which `extract_competitor_info` stores
under `market_share` in the competitor data model
(`src/competitor_analyzer.py` line 127). -/
theorem C5_counterexample :
    extract_market_share noRe "" = "Non specificata" := rfl

/-- C5 amended: in `extract_data_from_results` a field whose patterns match
nowhere is simply absent from the result mapping (no sentinel), but
`extract_market_share` in the competitor analyzer instead returns the
placeholder "Non specificata" when nothing matches. -/
theorem C5_unmatched_absent (re_search : Regex) (results : List ResultRec)
    (agent k : String)
    (h : ∀ r ∈ results, ∀ p ∈ patternsOf k, re_search p (content_of r) = none)
    (hms : ∀ p ∈ marketSharePats, re_search p "" = none) :
    dget (extract_data_from_results re_search results agent) k = none
      ∧ extract_market_share re_search "" = "Non specificata" := by
  constructor
  · exact extract_foldl_absent re_search agent k results [] h rfl
  · have hn : marketSharePats.findSome? (fun p => re_search p "") = none :=
      List.findSome?_eq_none_iff.mpr hms
    unfold extract_market_share
    rw [hn]

/-- Witness for C5 with the always-failing oracle on a concrete record. -/
theorem C5_unmatched_absent_witness :
    dget (extract_data_from_results noRe [blandRes] "financial_agent") "piva"
        = none
      ∧ extract_market_share noRe "" = "Non specificata" :=
  C5_unmatched_absent noRe [blandRes] "financial_agent" "piva"
    (fun _ _ _ _ => rfl) (fun _ _ => rfl)

/-! ## Aggregation lemmas (C2, C3) -/

theorem consolidateStep_sources (cons : Consolidated)
    (p : String × AgentResult) :
    (consolidateStep cons p).all_sources = cons.all_sources ++ srcsOf p := by
  obtain ⟨nm, r⟩ := p
  cases r with
  | failure e => simp [consolidateStep, srcsOf]
  | ok de sd c =>
    simp only [consolidateStep, srcsOf]
    split_ifs <;> rfl

theorem consolidate_foldl_sources :
    ∀ (ars : List (String × AgentResult)) (cons : Consolidated),
      (ars.foldl consolidateStep cons).all_sources
        = cons.all_sources ++ (ars.map srcsOf).flatten := by
  intro ars
  induction ars with
  | nil => intro cons; simp
  | cons p ps ih =>
    intro cons
    rw [List.foldl_cons, ih, consolidateStep_sources, List.map_cons,
      List.flatten_cons, List.append_assoc]

/-- C3 counterexample: two non-failed agents both citing the result with
url "https://x.it" contribute TWO entries for that URL to the consolidated
sources — the aggregator performs no deduplication. -/
theorem C3_counterexample :
    ((consolidate_agents_data c3agents).all_sources.filter
        (fun r => r.url == "https://x.it")).length = 2
      ∧ (2 : ℕ) ≠ 1 := ⟨rfl, by decide⟩

/-- C3 amended: the consolidated sources list is the concatenation, in
first-seen order, of every result of every performed search of every
non-failed agent; duplicate URLs are retained (no deduplication by URL). -/
theorem C3_sources_concat (ars : List (String × AgentResult)) :
    (consolidate_agents_data ars).all_sources = (ars.map srcsOf).flatten := by
  unfold consolidate_agents_data
  rw [consolidate_foldl_sources]
  rfl

/-- C2 counterexample: with one failed agent and three productive agents of
scores 0.05, 0.1 and 0.1, the reported overall score is round2(1/12) =
0.08, which differs from the exact arithmetic mean 1/12 of the non-failed
scores — `overall_score` is the rounded mean, not the mean itself. -/
theorem C2_counterexample :
    (c2agents.filter (fun p => isError p.2)).length = 1
      ∧ (c2agents.filter (fun p => !(isError p.2))).length = 3
      ∧ (calculate_quality_metrics ⟨c2agents, emptyConsolidated⟩).overall_score
          ≠ ((0.05 : ℚ) + 0.1 + 0.1) / 3 := by
  refine ⟨rfl, rfl, ?_⟩
  have h1 : agentScores c2agents
      = [("financial_agent", 0.05), ("digital_agent", 0.1),
         ("social_agent", 0.1)] := rfl
  have hov : (calculate_quality_metrics ⟨c2agents, emptyConsolidated⟩).overall_score
      = round2 (1/12) := by
    show round2 (if (agentScores c2agents).length ≠ 0 then
        ((agentScores c2agents).map Prod.snd).sum
          / ((agentScores c2agents).length : ℚ)
      else 0) = _
    rw [h1]
    norm_num
  rw [hov]
  have hrhe : roundHalfEven ((1 : ℚ)/12 * 100) = 8 := by
    have e2 : ((1 : ℚ)/12 * 100) = 25/3 := by norm_num
    rw [e2]
    unfold roundHalfEven
    have hfl : ⌊(25 : ℚ)/3⌋ = 8 := by
      rw [Int.floor_eq_iff] <;> norm_num
    rw [hfl, if_neg (by norm_num), round_eq]
    have e3 : ((25 : ℚ)/3 + 1/2) = 53/6 := by norm_num
    rw [e3, Int.floor_eq_iff] <;> norm_num
  unfold round2
  rw [hrhe]
  norm_num

/-- C2 amended: when at least one aspect did not fail, the aggregator's
`overall_score` is the arithmetic mean of the confidence scores of the
non-failed aspects, rounded to two decimal places — failed aspects are
excluded from both numerator and denominator, never scored as zero. -/
theorem C2_overall_mean (ars : List (String × AgentResult))
    (cons : Consolidated)
    (hfail : ∃ p ∈ ars, isError p.2 = true)
    (hok : ∃ p ∈ ars, isError p.2 = false) :
    (calculate_quality_metrics ⟨ars, cons⟩).overall_score
      = round2 (((agentScores ars).map Prod.snd).sum
          / ((agentScores ars).length : ℚ)) := by
  obtain ⟨p, hp, hpe⟩ := hok
  have hlen : (agentScores ars).length ≠ 0 := by
    cases h2 : p.2 with
    | failure e =>
      rw [h2] at hpe
      simp [isError] at hpe
    | ok de sd c =>
      have hmem : (p.1, c) ∈ agentScores ars :=
        List.mem_filterMap.mpr ⟨p, hp, by rw [h2]⟩
      have := List.length_pos.mpr (List.ne_nil_of_mem hmem)
      omega
  show round2 (if (agentScores ars).length ≠ 0 then
      ((agentScores ars).map Prod.snd).sum / ((agentScores ars).length : ℚ)
    else 0) = _
  rw [if_pos hlen]

/-- Witness for C2: one aspect with score 0.8 consolidated with one failed
aspect yields overall score 0.8, not 0.4. -/
theorem C2_overall_mean_witness :
    (calculate_quality_metrics ⟨c2wAgents, emptyConsolidated⟩).overall_score
      = 0.8 := by
  rw [C2_overall_mean c2wAgents emptyConsolidated
    ⟨("company_agent", .failure "boom"),
      List.mem_cons_of_mem _ (List.mem_cons_self _ _), rfl⟩
    ⟨("financial_agent", .ok [] ⟨[], []⟩ 0.8),
      List.mem_cons_self _ _, rfl⟩]
  have h1 : agentScores c2wAgents = [("financial_agent", 0.8)] := rfl
  rw [h1]
  have e : (([("financial_agent", (0.8 : ℚ))].map Prod.snd).sum
      / (([("financial_agent", (0.8 : ℚ))].length : ℕ) : ℚ)) = 0.8 := by
    norm_num
  rw [e]
  exact round2_eq_self 0.8 80 (by norm_num)

end Market
